import Mathlib

/-!
Shallow embedding of `ceasiompy/SU2Run/su2run.py` (module `SU2Run` of
CEASIOMpy): the functions `run_SU2_single`, `run_SU2_multi`, `run_SU2_fsi`
and the `__main__` dispatch.  The module is an orchestration layer: it
checks directories, scans them for configuration files with fixed names,
mutates a few key/value pairs of a parsed configuration, and invokes
external executables (`SU2_CFD`, `SU2_SOL`, `SU2_DEF`) in sequence.

The embedding makes the interaction with the outside world explicit:

* a `World` provides the oracles the code consults (`os.path.exists`,
  `os.listdir`, the configuration parser `su2f.read_config`, the exit
  status each external executable would return, and the current working
  directory at entry);
* each embedded function returns an `Outcome`: the ordered `trace` of
  observable side effects (`os.chdir`, subprocess invocations,
  configuration writes, load extraction) together with a `result` that is
  either normal return (Python `None`, here `Unit`) or a raised exception
  (`OSError` / `ValueError`).
-/

namespace SU2Run

/-- A value stored in an SU2 configuration dictionary: the code puts
strings, lists of strings (`DV_PARAM`) and the numeric literal `0.01`
(`DV_VALUE`) into it; the literal is represented exactly as a rational. -/
inductive Value where
  | str : String → Value
  | strList : List String → Value
  | rat : ℚ → Value
deriving DecidableEq, Repr

/-- A parsed configuration: an insertion-ordered association list, the
shallow embedding of the Python `dict` returned by `su2f.read_config`. -/
abbrev Config := List (String × Value)

/-- Python `dict` lookup on the association list (first binding wins;
a well-formed `dict` has no duplicate keys). -/
def lookupKey (cfg : Config) (k : String) : Option Value :=
  match cfg with
  | [] => none
  | (k', v) :: rest => if k' = k then some v else lookupKey rest k

/-- Python `dict` assignment `cfg[k] = v`: overwrite the binding in place
if the key is present, append it otherwise (insertion order preserved). -/
def setKey (cfg : Config) (k : String) (v : Value) : Config :=
  match cfg with
  | [] => [(k, v)]
  | (k', v') :: rest => if k' = k then (k', v) :: rest else (k', v') :: setKey rest k v

/-- One observable side effect of the module. -/
inductive Event where
  | chdir : String → Event
  | runSoft : String → String → String → Event
  | readConfig : String → Event
  | writeConfig : String → Config → Event
  | extractLoads : String → Event
deriving DecidableEq, Repr

/-- A raised Python exception. -/
inductive Err where
  | osError : String → Err
  | valueError : String → Err
deriving DecidableEq, Repr

/-- The oracles the code consults on the outside world. -/
structure World where
  pathExists : String → Bool
  listdir : String → List String
  readConfig : String → Config
  runSoftStatus : String → String → String → Int
  cwd0 : String

/-- Result of running one of the embedded functions: the ordered trace of
side effects and either normal return (`()`, Python `None`) or a raised
exception. -/
structure Outcome where
  trace : List Event
  result : Except Err Unit
deriving Repr

/-- The current working directory after a trace of events, starting from
`start`: the argument of the last `chdir` event, if any. -/
def cwdAfter (start : String) (t : List Event) : String :=
  t.foldl (fun c e => match e with | Event.chdir d => d | _ => c) start

/-- `os.path.join` for a relative second component, as used throughout
the module: `os.path.join(a, b) = a + '/' + b`. -/
def pjoin (a b : String) : String := a ++ "/" ++ b

/-- Modelled from the spec: `su2f.run_soft` (module
`ceasiompy.utils.su2functions`, whose source is not under `src/`)
"invoke[s] external executables in a fixed sequence, forwarding their exit
status"; it runs the named executable on the given configuration file in
the given directory and yields the subprocess's exit status.  The
embedding records the invocation as an event and hands the status back to
the caller. -/
def run_soft (w : World) (soft config_path wkdir : String) : List Event × Int :=
  ([Event.runSoft soft config_path wkdir], w.runSoftStatus soft config_path wkdir)

/-- Modelled from the spec: `su2f.read_config` (not under `src/`) parses a
"text configuration format" into key/value pairs; the `World` supplies the
parsed configuration and the read is recorded as an event. -/
def read_config (w : World) (path : String) : List Event × Config :=
  ([Event.readConfig path], w.readConfig path)

/-- Modelled from the spec: `su2f.write_config` (not under `src/`) writes
the key/value pairs back to a configuration file; recorded as an event. -/
def write_config (path : String) (cfg : Config) : List Event :=
  [Event.writeConfig path cfg]

/-- The `OSError` message of the three run functions (the source string
concatenation lacks a space before `does`). -/
def wkdirMsg (wkdir : String) : String :=
  "The working directory : " ++ wkdir ++ "does not exit!"

/-- Embedding of `run_SU2_single(config_path, wkdir)`: check the working
directory, `chdir` into it, run `SU2_CFD` then `SU2_SOL` (statuses
discarded, as the Python expression statements discard them), `chdir`
back. -/
def run_SU2_single (config_path wkdir : String) (w : World) : Outcome :=
  if !w.pathExists wkdir then
    { trace := [], result := Except.error (Err.osError (wkdirMsg wkdir)) }
  else
    let original_dir := w.cwd0
    { trace := [Event.chdir wkdir]
        ++ (run_soft w "SU2_CFD" config_path wkdir).1
        ++ (run_soft w "SU2_SOL" config_path wkdir).1
        ++ [Event.chdir original_dir],
      result := Except.ok () }

/-- `startsWith s p = true` iff the list `s` starts with the pattern `p`
(helper for Python's substring test `'Case' in dir`). -/
def startsWith : List Char → List Char → Bool
  | _, [] => true
  | [], _ :: _ => false
  | a :: as, b :: bs => a = b && startsWith as bs

/-- `containsSub p s = true` iff the pattern `p` occurs contiguously in
`s` (helper for Python's substring test). -/
def containsSub (p : List Char) : List Char → Bool
  | [] => p.isEmpty
  | c :: rest => startsWith (c :: rest) p || containsSub p rest

/-- Python's `sub in s` on strings: contiguous substring containment. -/
def strContains (sub s : String) : Bool :=
  containsSub sub.toList s.toList

/-- The flags and paths accumulated by the file scan of `run_SU2_multi`
(Python locals `find_config_*` and `config_*_path`; a `*_path` local is
only ever read when the corresponding flag is set, so its unbound initial
state is embedded as `""`). -/
structure FindSt where
  find_config_cfd : Bool := false
  find_config_def : Bool := false
  find_config_rot : Bool := false
  find_config_rot_sym : Bool := false
  config_cfd_path : String := ""
  config_def_path : String := ""
  config_rot_path : String := ""
  config_rot_sym_path : String := ""
deriving DecidableEq, Repr

/-- One iteration of the `for file in os.listdir(config_dir)` loop of
`run_SU2_multi`: four independent `if` tests against the fixed file
names, each raising `ValueError` on a second occurrence and otherwise
recording the path and flag. -/
def scanFile (config_dir : String) (st : FindSt) (file : String) : Except Err FindSt := do
  let st ←
    if file = "ConfigCFD.cfg" then
      if st.find_config_cfd then
        Except.error (Err.valueError "More than one \"ConfigCFD.cfg\" file in this directory!")
      else
        pure { st with config_cfd_path := pjoin config_dir file, find_config_cfd := true }
    else pure st
  let st ←
    if file = "ConfigDEF.cfg" then
      if st.find_config_def then
        Except.error (Err.valueError "More than one \"ConfigDEF.cfg\" file in this directory!")
      else
        pure { st with config_def_path := pjoin config_dir file, find_config_def := true }
    else pure st
  let st ←
    if file = "ConfigDEF_rot.cfg" then
      if st.find_config_rot then
        Except.error (Err.valueError "More than one \"ConfigDEF_rot.cfg\" file in this directory!")
      else
        pure { st with config_rot_path := pjoin config_dir file, find_config_rot := true }
    else pure st
  let st ←
    if file = "ConfigDEF_rot_sym.cfg" then
      if st.find_config_rot_sym then
        Except.error (Err.valueError "More than one \"ConfigDEF_rot_sym.cfg\" file in this directory!")
      else
        pure { st with config_rot_sym_path := pjoin config_dir file, find_config_rot_sym := true }
    else pure st
  pure st

/-- The whole `for file in os.listdir(config_dir)` loop. -/
def scanFiles (config_dir : String) (files : List String) : Except Err FindSt :=
  files.foldlM (scanFile config_dir) {}

/-- The run section of one case-directory iteration of `run_SU2_multi`:
`SU2_DEF` for each deformation configuration that was found, then the
`ValueError` when `ConfigCFD.cfg` is missing, otherwise `SU2_CFD`
(the `SU2_SOL` line of the source is commented out). -/
def caseRuns (w : World) (config_dir : String) (st : FindSt) : List Event × Option Err :=
  let t1 := if st.find_config_def then (run_soft w "SU2_DEF" st.config_def_path config_dir).1 else []
  let t2 := if st.find_config_rot then (run_soft w "SU2_DEF" st.config_rot_path config_dir).1 else []
  let t3 := if st.find_config_rot_sym then
      (run_soft w "SU2_DEF" st.config_rot_sym_path config_dir).1 else []
  if !st.find_config_cfd then
    (t1 ++ t2 ++ t3,
      some (Err.valueError "No \"ConfigCFD.cfg\" file has been found in this directory!"))
  else
    (t1 ++ t2 ++ t3 ++ (run_soft w "SU2_CFD" st.config_cfd_path config_dir).1, none)

/-- One full case-directory iteration of the `for dir in case_dir_list`
loop: `chdir` into the case directory, scan its listing, run the
executables, `chdir` back to the working directory on success. -/
def processCase (w : World) (wkdir dir : String) : List Event × Option Err :=
  let config_dir := pjoin wkdir dir
  match scanFiles config_dir (w.listdir config_dir) with
  | Except.error e => ([Event.chdir config_dir], some e)
  | Except.ok st =>
    match caseRuns w config_dir st with
    | (t, some e) => (Event.chdir config_dir :: t, some e)
    | (t, none) => (Event.chdir config_dir :: (t ++ [Event.chdir wkdir]), none)

/-- The `for dir in case_dir_list` loop: process the case directories in
order, stopping at the first raised exception. -/
def processCases (w : World) (wkdir : String) : List String → List Event × Option Err
  | [] => ([], none)
  | d :: ds =>
    match processCase w wkdir d with
    | (t, some e) => (t, some e)
    | (t, none) =>
      let rest := processCases w wkdir ds
      (t ++ rest.1, rest.2)

/-- `case_dir_list = [dir for dir in os.listdir(wkdir) if 'Case' in dir]`. -/
def caseDirList (w : World) (wkdir : String) : List String :=
  (w.listdir wkdir).filter (fun d => strContains "Case" d)

/-- Embedding of `run_SU2_multi(wkdir)`: check the working directory,
`chdir` into it, collect the case directories, raise `OSError` when there
are none, otherwise process each case directory in order.  The function
never restores the caller's working directory. -/
def run_SU2_multi (wkdir : String) (w : World) : Outcome :=
  if !w.pathExists wkdir then
    { trace := [], result := Except.error (Err.osError (wkdirMsg wkdir)) }
  else
    let dirs := caseDirList w wkdir
    if dirs = [] then
      { trace := [Event.chdir wkdir],
        result := Except.error
          (Err.osError ("No folder has been found in the working directory: " ++ wkdir)) }
    else
      match processCases w wkdir dirs with
      | (t, some e) => { trace := Event.chdir wkdir :: t, result := Except.error e }
      | (t, none) => { trace := Event.chdir wkdir :: t, result := Except.ok () }

/-- The five `cfg_def[...] = ...` assignments of `run_SU2_fsi`. -/
def fsiDefConfig (cfg : Config) : Config :=
  let cfg := setKey cfg "DV_KIND" (Value.str "SURFACE_FILE")
  let cfg := setKey cfg "DV_MARKER" (Value.str "Wing")
  let cfg := setKey cfg "DV_FILENAME" (Value.str "disp.dat")
  let cfg := setKey cfg "DV_PARAM"
    (Value.strList ["WING", "0", "0", "1", "0.0", "0.0", "1.0"])
  setKey cfg "DV_VALUE" (Value.rat 0.01)

/-- Embedding of `run_SU2_fsi(config_path, wkdir)`: check the working
directory, `chdir` into it, write the deformation configuration
(`ConfigDEF.cfg`) and the flow configuration (`ConfigCFD.cfg`) derived
from the parsed input configuration, run `SU2_DEF`, `SU2_CFD`, `SU2_SOL`,
extract the loads, `chdir` back. -/
def run_SU2_fsi (config_path wkdir : String) (w : World) : Outcome :=
  if !w.pathExists wkdir then
    { trace := [], result := Except.error (Err.osError (wkdirMsg wkdir)) }
  else
    let original_dir := w.cwd0
    let config_def_path := pjoin wkdir "ConfigDEF.cfg"
    let rd := read_config w config_path
    let cfg_def := fsiDefConfig rd.2
    let config_cfd_path := pjoin wkdir "ConfigCFD.cfg"
    let rc := read_config w config_path
    let cfg_cfd := setKey rc.2 "MESH_FILENAME" (Value.str "mesh_out.su2")
    { trace := Event.chdir wkdir
        :: (rd.1 ++ write_config config_def_path cfg_def
        ++ rc.1 ++ write_config config_cfd_path cfg_cfd
        ++ (run_soft w "SU2_DEF" config_def_path wkdir).1
        ++ (run_soft w "SU2_CFD" config_cfd_path wkdir).1
        ++ (run_soft w "SU2_SOL" config_cfd_path wkdir).1
        ++ [Event.extractLoads wkdir, Event.chdir original_dir]),
      result := Except.ok () }

/-- A workflow step of the `__main__` block: the invocations of this
module's run functions and of the sibling modules' `generate_su2_config`
and `get_su2_results`. -/
inductive MainStep where
  | generate_su2_config
  | run_single
  | run_multi
  | run_fsi
  | get_su2_results
deriving DecidableEq, Repr

/-- Embedding of the `__main__` dispatch on `sys.argv` (the list includes
the program name at position 0): which workflow steps run, in order. -/
def mainSteps (argv : List String) : List MainStep :=
  match argv with
  | _prog :: arg1 :: _rest =>
    if arg1 = "-c" then [MainStep.generate_su2_config]
    else if arg1 = "-s" then [MainStep.run_single]
    else if arg1 = "-m" then [MainStep.run_multi]
    else if arg1 = "-f" then [MainStep.run_fsi]
    else if arg1 = "-r" then [MainStep.get_su2_results]
    else []
  | _ => [MainStep.generate_su2_config, MainStep.run_multi, MainStep.get_su2_results]

/-- The subprocess invocations of a trace, in order: executable name,
configuration path, directory. -/
def softCalls (t : List Event) : List (String × String × String) :=
  t.filterMap (fun e =>
    match e with
    | Event.runSoft s c d => some (s, c, d)
    | _ => none)

/-! ### Concrete worlds used to instantiate the theorems -/

/-- A world in which every path exists, every directory listing is empty,
every configuration parses to a two-entry dictionary, and every
subprocess exits with status `0`. -/
def trivWorld : World :=
  { pathExists := fun _ => true
    listdir := fun _ => []
    readConfig := fun _ => [("MESH_FILENAME", Value.str "m.su2"), ("AOA", Value.str "2.0")]
    runSoftStatus := fun _ _ _ => 0
    cwd0 := "/home" }

/-- `trivWorld` with every subprocess exiting with status `1` instead. -/
def trivWorldFail : World :=
  { trivWorld with runSoftStatus := fun _ _ _ => 1 }

/-- A world in which no path exists. -/
def absentWorld : World :=
  { trivWorld with pathExists := fun _ => false }

/-- A world whose working directory `wk` holds one case directory
`Case01` containing a deformation and a flow configuration file. -/
def caseWorld : World :=
  { trivWorld with
    listdir := fun d =>
      if d = "wk" then ["Case01", "other"]
      else if d = "wk/Case01" then ["ConfigDEF.cfg", "ConfigCFD.cfg", "notes.txt"]
      else [] }

/-- A world whose working directory `wk` holds one case directory
`Case01` containing only a deformation configuration file, so that the
flow configuration `ConfigCFD.cfg` is missing. -/
def noCfdWorld : World :=
  { trivWorld with
    listdir := fun d =>
      if d = "wk" then ["Case01"]
      else if d = "wk/Case01" then ["ConfigDEF.cfg"]
      else [] }

/-- The scan state reached in `caseWorld`'s case directory `Case01`. -/
def caseSt : FindSt :=
  { find_config_cfd := true
    find_config_def := true
    config_cfd_path := "wk/Case01/ConfigCFD.cfg"
    config_def_path := "wk/Case01/ConfigDEF.cfg" }

/-- The scan state reached in `noCfdWorld`'s case directory `Case01`. -/
def noCfdSt : FindSt :=
  { find_config_def := true
    config_def_path := "wk/Case01/ConfigDEF.cfg" }

/-! ### Helper lemmas -/

theorem run_soft_fst (w : World) (s c d : String) :
    (run_soft w s c d).1 = [Event.runSoft s c d] := rfl

theorem lookupKey_setKey_same (cfg : Config) (k : String) (v : Value) :
    lookupKey (setKey cfg k v) k = some v := by
  induction cfg with
  | nil => simp [setKey, lookupKey]
  | cons kv rest ih =>
    by_cases h : kv.1 = k
    · simp [setKey, lookupKey, h]
    · simp [setKey, lookupKey, h, ih]

theorem lookupKey_setKey_ne (cfg : Config) (k k' : String) (v : Value) (h : k' ≠ k) :
    lookupKey (setKey cfg k v) k' = lookupKey cfg k' := by
  induction cfg with
  | nil =>
    have : ¬ (k = k') := fun hh => h hh.symm
    simp [setKey, lookupKey, this]
  | cons kv rest ih =>
    by_cases hk : kv.1 = k
    · have : ¬ (k = k') := fun hh => h hh.symm
      simp [setKey, lookupKey, hk, this]
    · simp [setKey, lookupKey, hk, ih]

/-- The status oracle is never consulted for the observable part of a
subprocess invocation. -/
theorem run_soft_fst_update (w : World) (f : String → String → String → Int)
    (s c d : String) :
    (run_soft { w with runSoftStatus := f } s c d).1 = (run_soft w s c d).1 := rfl

theorem caseRuns_update (w : World) (f : String → String → String → Int)
    (cd : String) (st : FindSt) :
    caseRuns { w with runSoftStatus := f } cd st = caseRuns w cd st := rfl

theorem processCase_update (w : World) (f : String → String → String → Int)
    (wkdir d : String) :
    processCase { w with runSoftStatus := f } wkdir d = processCase w wkdir d := rfl

theorem caseDirList_update (w : World) (f : String → String → String → Int)
    (wkdir : String) :
    caseDirList { w with runSoftStatus := f } wkdir = caseDirList w wkdir := rfl

theorem processCases_update (w : World) (f : String → String → String → Int)
    (wkdir : String) (ds : List String) :
    processCases { w with runSoftStatus := f } wkdir ds = processCases w wkdir ds := by
  induction ds with
  | nil => rfl
  | cons d ds ih =>
    simp only [processCases, processCase_update, ih]

/-! ### C1 -/

/-- C1, counterexample: the exit status of the invoked executables is not
forwarded to the caller.  In two worlds that differ only in the statuses
the subprocesses return (all `0` versus all `1`), `run_SU2_single`
produces the same outcome, and that outcome's result is the plain `None`
return (`Except.ok ()`), carrying no status. -/
theorem run_status_not_forwarded_cex :
    trivWorld.runSoftStatus "SU2_CFD" "cfg" "wk" = 0 ∧
    trivWorldFail.runSoftStatus "SU2_CFD" "cfg" "wk" = 1 ∧
    run_SU2_single "cfg" "wk" trivWorld = run_SU2_single "cfg" "wk" trivWorldFail ∧
    (run_SU2_single "cfg" "wk" trivWorldFail).result = Except.ok () := by
  exact ⟨rfl, rfl, rfl, rfl⟩

/-- C1, amended: the run functions discard the exit status of every
subprocess they invoke: replacing the status oracle by any other changes
neither the trace nor the result of `run_SU2_single`, `run_SU2_multi` or
`run_SU2_fsi`. -/
theorem run_statuses_discarded (config_path wkdir : String) (w : World)
    (f : String → String → String → Int) :
    run_SU2_single config_path wkdir { w with runSoftStatus := f } =
      run_SU2_single config_path wkdir w ∧
    run_SU2_multi wkdir { w with runSoftStatus := f } = run_SU2_multi wkdir w ∧
    run_SU2_fsi config_path wkdir { w with runSoftStatus := f } =
      run_SU2_fsi config_path wkdir w := by
  refine ⟨rfl, ?_, rfl⟩
  unfold run_SU2_multi
  simp only [caseDirList_update, processCases_update]

/-! ### C4 -/

/-- C4: on an existing working directory, `run_SU2_single` invokes
exactly two executables, `SU2_CFD` then `SU2_SOL`, each with the given
configuration path and working directory, and returns normally. -/
theorem run_single_invocations (config_path wkdir : String) (w : World)
    (h : w.pathExists wkdir = true) :
    softCalls (run_SU2_single config_path wkdir w).trace =
      [("SU2_CFD", config_path, wkdir), ("SU2_SOL", config_path, wkdir)] ∧
    (run_SU2_single config_path wkdir w).result = Except.ok () := by
  simp [run_SU2_single, h, run_soft, softCalls]

/-- C4, witness at a concrete world. -/
theorem run_single_invocations_witness :
    trivWorld.pathExists "wk" = true ∧
    (softCalls (run_SU2_single "cfg" "wk" trivWorld).trace =
      [("SU2_CFD", "cfg", "wk"), ("SU2_SOL", "cfg", "wk")] ∧
    (run_SU2_single "cfg" "wk" trivWorld).result = Except.ok ()) :=
  ⟨rfl, run_single_invocations "cfg" "wk" trivWorld rfl⟩

/-! ### C8 -/

/-- C8: when the working directory does not exist, each of the three run
functions raises `OSError` with an empty trace: no executable invocation,
no configuration read or write, and no change of the current working
directory has happened. -/
theorem run_nonexistent_wkdir (config_path wkdir : String) (w : World)
    (h : w.pathExists wkdir = false) :
    run_SU2_single config_path wkdir w =
      { trace := [], result := Except.error (Err.osError (wkdirMsg wkdir)) } ∧
    run_SU2_multi wkdir w =
      { trace := [], result := Except.error (Err.osError (wkdirMsg wkdir)) } ∧
    run_SU2_fsi config_path wkdir w =
      { trace := [], result := Except.error (Err.osError (wkdirMsg wkdir)) } := by
  refine ⟨?_, ?_, ?_⟩ <;> simp [run_SU2_single, run_SU2_multi, run_SU2_fsi, h]

/-- C8, witness at a concrete world with no existing paths. -/
theorem run_nonexistent_wkdir_witness :
    absentWorld.pathExists "wk" = false ∧
    (run_SU2_single "cfg" "wk" absentWorld =
      { trace := [], result := Except.error (Err.osError (wkdirMsg "wk")) } ∧
    run_SU2_multi "wk" absentWorld =
      { trace := [], result := Except.error (Err.osError (wkdirMsg "wk")) } ∧
    run_SU2_fsi "cfg" "wk" absentWorld =
      { trace := [], result := Except.error (Err.osError (wkdirMsg "wk")) }) :=
  ⟨rfl, run_nonexistent_wkdir "cfg" "wk" absentWorld rfl⟩

/-! ### C7 -/

/-- C7: started with no command-line argument (`sys.argv` is just the
program name), the `__main__` block performs exactly three workflow steps
in fixed order: `generate_su2_config`, then `run_SU2_multi`, then
`get_su2_results`. -/
theorem main_no_arg_steps (prog : String) :
    mainSteps [prog] =
      [MainStep.generate_su2_config, MainStep.run_multi, MainStep.get_su2_results] := rfl

/-! ### C2 -/

/-- C2: on an existing working directory, `run_SU2_fsi` writes exactly
two configuration files.  The one written to `ConfigCFD.cfg` is the
parsed input configuration with `MESH_FILENAME` set to `mesh_out.su2`
and every other key unchanged; the one written to `ConfigDEF.cfg` is the
parsed input configuration with the five keys `DV_KIND`, `DV_MARKER`,
`DV_FILENAME`, `DV_PARAM`, `DV_VALUE` set to their fixed values and
every other key unchanged. -/
theorem fsi_config_writes (config_path wkdir : String) (w : World)
    (h : w.pathExists wkdir = true) :
    ∃ cfg_def cfg_cfd : Config,
      (∀ p cfg, Event.writeConfig p cfg ∈ (run_SU2_fsi config_path wkdir w).trace ↔
        (p = pjoin wkdir "ConfigDEF.cfg" ∧ cfg = cfg_def) ∨
        (p = pjoin wkdir "ConfigCFD.cfg" ∧ cfg = cfg_cfd)) ∧
      lookupKey cfg_cfd "MESH_FILENAME" = some (Value.str "mesh_out.su2") ∧
      (∀ k, k ≠ "MESH_FILENAME" →
        lookupKey cfg_cfd k = lookupKey (w.readConfig config_path) k) ∧
      lookupKey cfg_def "DV_KIND" = some (Value.str "SURFACE_FILE") ∧
      lookupKey cfg_def "DV_MARKER" = some (Value.str "Wing") ∧
      lookupKey cfg_def "DV_FILENAME" = some (Value.str "disp.dat") ∧
      lookupKey cfg_def "DV_PARAM" =
        some (Value.strList ["WING", "0", "0", "1", "0.0", "0.0", "1.0"]) ∧
      lookupKey cfg_def "DV_VALUE" = some (Value.rat 0.01) ∧
      (∀ k, k ∉ (["DV_KIND", "DV_MARKER", "DV_FILENAME", "DV_PARAM", "DV_VALUE"] :
          List String) →
        lookupKey cfg_def k = lookupKey (w.readConfig config_path) k) := by
  refine ⟨fsiDefConfig (w.readConfig config_path),
    setKey (w.readConfig config_path) "MESH_FILENAME" (Value.str "mesh_out.su2"),
    ?_, ?_, ?_, ?_, ?_, ?_, ?_, ?_, ?_⟩
  · intro p cfg
    simp [run_SU2_fsi, h, run_soft, read_config, write_config]
  · exact lookupKey_setKey_same _ _ _
  · intro k hk
    exact lookupKey_setKey_ne _ _ _ _ hk
  · simp only [fsiDefConfig]
    rw [lookupKey_setKey_ne _ _ _ _ (by decide), lookupKey_setKey_ne _ _ _ _ (by decide),
      lookupKey_setKey_ne _ _ _ _ (by decide), lookupKey_setKey_ne _ _ _ _ (by decide),
      lookupKey_setKey_same]
  · simp only [fsiDefConfig]
    rw [lookupKey_setKey_ne _ _ _ _ (by decide), lookupKey_setKey_ne _ _ _ _ (by decide),
      lookupKey_setKey_ne _ _ _ _ (by decide), lookupKey_setKey_same]
  · simp only [fsiDefConfig]
    rw [lookupKey_setKey_ne _ _ _ _ (by decide), lookupKey_setKey_ne _ _ _ _ (by decide),
      lookupKey_setKey_same]
  · simp only [fsiDefConfig]
    rw [lookupKey_setKey_ne _ _ _ _ (by decide), lookupKey_setKey_same]
  · simp only [fsiDefConfig]
    rw [lookupKey_setKey_same]
  · intro k hk
    simp only [List.mem_cons, not_or] at hk
    obtain ⟨h1, h2, h3, h4, h5, -⟩ := hk
    simp only [fsiDefConfig]
    rw [lookupKey_setKey_ne _ _ _ _ h5, lookupKey_setKey_ne _ _ _ _ h4,
      lookupKey_setKey_ne _ _ _ _ h3, lookupKey_setKey_ne _ _ _ _ h2,
      lookupKey_setKey_ne _ _ _ _ h1]

/-- C2, witness at a concrete world. -/
theorem fsi_config_writes_witness :
    trivWorld.pathExists "wk" = true ∧
    (∃ cfg_def cfg_cfd : Config,
      (∀ p cfg, Event.writeConfig p cfg ∈ (run_SU2_fsi "cfg" "wk" trivWorld).trace ↔
        (p = pjoin "wk" "ConfigDEF.cfg" ∧ cfg = cfg_def) ∨
        (p = pjoin "wk" "ConfigCFD.cfg" ∧ cfg = cfg_cfd)) ∧
      lookupKey cfg_cfd "MESH_FILENAME" = some (Value.str "mesh_out.su2") ∧
      (∀ k, k ≠ "MESH_FILENAME" →
        lookupKey cfg_cfd k = lookupKey (trivWorld.readConfig "cfg") k) ∧
      lookupKey cfg_def "DV_KIND" = some (Value.str "SURFACE_FILE") ∧
      lookupKey cfg_def "DV_MARKER" = some (Value.str "Wing") ∧
      lookupKey cfg_def "DV_FILENAME" = some (Value.str "disp.dat") ∧
      lookupKey cfg_def "DV_PARAM" =
        some (Value.strList ["WING", "0", "0", "1", "0.0", "0.0", "1.0"]) ∧
      lookupKey cfg_def "DV_VALUE" = some (Value.rat 0.01) ∧
      (∀ k, k ∉ (["DV_KIND", "DV_MARKER", "DV_FILENAME", "DV_PARAM", "DV_VALUE"] :
          List String) →
        lookupKey cfg_def k = lookupKey (trivWorld.readConfig "cfg") k)) :=
  ⟨rfl, fsi_config_writes "cfg" "wk" trivWorld rfl⟩

/-! ### C5 -/

/-- C5: on an existing working directory, `run_SU2_fsi` invokes the
executables in the fixed order `SU2_DEF` (with the generated
`ConfigDEF.cfg`), `SU2_CFD`, `SU2_SOL` (both with the generated
`ConfigCFD.cfg`), and the load extraction on the working directory comes
only after all three invocations (the trace after it contains no further
invocation). -/
theorem fsi_invocation_order (config_path wkdir : String) (w : World)
    (h : w.pathExists wkdir = true) :
    ∃ pre, (run_SU2_fsi config_path wkdir w).trace =
        pre ++ [Event.extractLoads wkdir, Event.chdir w.cwd0] ∧
      softCalls pre =
        [("SU2_DEF", pjoin wkdir "ConfigDEF.cfg", wkdir),
         ("SU2_CFD", pjoin wkdir "ConfigCFD.cfg", wkdir),
         ("SU2_SOL", pjoin wkdir "ConfigCFD.cfg", wkdir)] ∧
      softCalls (run_SU2_fsi config_path wkdir w).trace = softCalls pre := by
  refine ⟨[Event.chdir wkdir, Event.readConfig config_path,
    Event.writeConfig (pjoin wkdir "ConfigDEF.cfg") (fsiDefConfig (w.readConfig config_path)),
    Event.readConfig config_path,
    Event.writeConfig (pjoin wkdir "ConfigCFD.cfg")
      (setKey (w.readConfig config_path) "MESH_FILENAME" (Value.str "mesh_out.su2")),
    Event.runSoft "SU2_DEF" (pjoin wkdir "ConfigDEF.cfg") wkdir,
    Event.runSoft "SU2_CFD" (pjoin wkdir "ConfigCFD.cfg") wkdir,
    Event.runSoft "SU2_SOL" (pjoin wkdir "ConfigCFD.cfg") wkdir], ?_, ?_, ?_⟩ <;>
  simp [run_SU2_fsi, h, run_soft, read_config, write_config, softCalls]

/-- C5, witness at a concrete world. -/
theorem fsi_invocation_order_witness :
    trivWorld.pathExists "wk" = true ∧
    (∃ pre, (run_SU2_fsi "cfg" "wk" trivWorld).trace =
        pre ++ [Event.extractLoads "wk", Event.chdir trivWorld.cwd0] ∧
      softCalls pre =
        [("SU2_DEF", pjoin "wk" "ConfigDEF.cfg", "wk"),
         ("SU2_CFD", pjoin "wk" "ConfigCFD.cfg", "wk"),
         ("SU2_SOL", pjoin "wk" "ConfigCFD.cfg", "wk")] ∧
      softCalls (run_SU2_fsi "cfg" "wk" trivWorld).trace = softCalls pre) :=
  ⟨rfl, fsi_invocation_order "cfg" "wk" trivWorld rfl⟩

/-! ### C3 -/

theorem startsWith_iff (s p : List Char) : startsWith s p = true ↔ ∃ u, s = p ++ u := by
  induction p generalizing s with
  | nil =>
    cases s <;> simp [startsWith]
  | cons b bs ih =>
    cases s with
    | nil => simp [startsWith]
    | cons a as =>
      simp [startsWith, ih, List.cons_append, List.cons.injEq]

theorem containsSub_iff (p s : List Char) :
    containsSub p s = true ↔ ∃ t u, s = t ++ p ++ u := by
  induction s with
  | nil =>
    simp only [containsSub, List.isEmpty_iff]
    constructor
    · rintro rfl
      exact ⟨[], [], rfl⟩
    · rintro ⟨t, u, h⟩
      rcases List.append_eq_nil.mp h.symm with ⟨h1, h2⟩
      rcases List.append_eq_nil.mp h1 with ⟨-, h3⟩
      exact h3
  | cons c rest ih =>
    simp only [containsSub, Bool.or_eq_true, startsWith_iff, ih]
    constructor
    · rintro (⟨u, hu⟩ | ⟨t, u, hu⟩)
      · exact ⟨[], u, by simp [hu]⟩
      · exact ⟨c :: t, u, by simp [hu]⟩
    · rintro ⟨t, u, hu⟩
      cases t with
      | nil =>
        exact Or.inl ⟨u, by simpa using hu⟩
      | cons x ts =>
        simp only [List.cons_append, List.cons.injEq] at hu
        exact Or.inr ⟨ts, u, hu.2⟩

/-- `strContains sub s` is genuine contiguous-substring containment. -/
theorem strContains_iff (sub s : String) :
    strContains sub s = true ↔ ∃ t u, s.toList = t ++ sub.toList ++ u :=
  containsSub_iff sub.toList s.toList

/-- C3: `run_SU2_multi` locates configuration files by fixed name.  A
scanned file leaves the scan state untouched (is not recognised) unless
its name is exactly one of the four fixed names; each of the four fixed
names is recognised, recording the matching path and flag; and the case
directories are exactly the entries of the working-directory listing
whose name contains the substring `Case`. -/
theorem multi_fixed_names :
    (∀ config_dir st file,
      file ∉ (["ConfigCFD.cfg", "ConfigDEF.cfg", "ConfigDEF_rot.cfg",
        "ConfigDEF_rot_sym.cfg"] : List String) →
      scanFile config_dir st file = Except.ok st) ∧
    (∀ config_dir, scanFile config_dir {} "ConfigCFD.cfg" =
      Except.ok { find_config_cfd := true,
                  config_cfd_path := pjoin config_dir "ConfigCFD.cfg" }) ∧
    (∀ config_dir, scanFile config_dir {} "ConfigDEF.cfg" =
      Except.ok { find_config_def := true,
                  config_def_path := pjoin config_dir "ConfigDEF.cfg" }) ∧
    (∀ config_dir, scanFile config_dir {} "ConfigDEF_rot.cfg" =
      Except.ok { find_config_rot := true,
                  config_rot_path := pjoin config_dir "ConfigDEF_rot.cfg" }) ∧
    (∀ config_dir, scanFile config_dir {} "ConfigDEF_rot_sym.cfg" =
      Except.ok { find_config_rot_sym := true,
                  config_rot_sym_path := pjoin config_dir "ConfigDEF_rot_sym.cfg" }) ∧
    (∀ w wkdir d, d ∈ caseDirList w wkdir ↔
      d ∈ w.listdir wkdir ∧ strContains "Case" d = true) ∧
    (∀ sub s, strContains sub s = true ↔ ∃ t u, s.toList = t ++ sub.toList ++ u) := by
  refine ⟨?_, ?_, ?_, ?_, ?_, ?_, strContains_iff⟩
  · intro config_dir st file hf
    simp only [List.mem_cons, not_or] at hf
    obtain ⟨h1, h2, h3, h4, -⟩ := hf
    simp [scanFile, h1, h2, h3, h4, pure, Except.pure, bind, Except.bind]
  · intro config_dir
    rfl
  · intro config_dir
    rfl
  · intro config_dir
    rfl
  · intro config_dir
    rfl
  · intro w wkdir d
    simp [caseDirList, List.mem_filter]

/-- C3, witness: a file with a non-matching name is not recognised. -/
theorem multi_fixed_names_witness :
    "notes.txt" ∉ (["ConfigCFD.cfg", "ConfigDEF.cfg", "ConfigDEF_rot.cfg",
      "ConfigDEF_rot_sym.cfg"] : List String) ∧
    scanFile "wk/Case01" {} "notes.txt" = Except.ok {} :=
  ⟨by decide, multi_fixed_names.1 "wk/Case01" {} "notes.txt" (by decide)⟩

/-! ### C6 -/

/-- C6: in a case directory whose scan found `ConfigCFD.cfg`, the
subprocess invocations are exactly the `SU2_DEF` runs for the
deformation configurations that were found (in the fixed order
`ConfigDEF.cfg`, `ConfigDEF_rot.cfg`, `ConfigDEF_rot_sym.cfg`, each only
if found) followed by the single `SU2_CFD` run: every `SU2_DEF`
invocation precedes the `SU2_CFD` invocation. -/
theorem multi_def_before_cfd (w : World) (wkdir d : String) (st : FindSt)
    (hscan : scanFiles (pjoin wkdir d) (w.listdir (pjoin wkdir d)) = Except.ok st)
    (hcfd : st.find_config_cfd = true) :
    softCalls (processCase w wkdir d).1 =
      (if st.find_config_def then [("SU2_DEF", st.config_def_path, pjoin wkdir d)] else []) ++
      (if st.find_config_rot then [("SU2_DEF", st.config_rot_path, pjoin wkdir d)] else []) ++
      (if st.find_config_rot_sym then
        [("SU2_DEF", st.config_rot_sym_path, pjoin wkdir d)] else []) ++
      [("SU2_CFD", st.config_cfd_path, pjoin wkdir d)] ∧
    (processCase w wkdir d).2 = none := by
  obtain ⟨cfd, fdef, frot, frotsym, pc, pd, pr, prs⟩ := st
  simp only at hcfd
  subst hcfd
  cases fdef <;> cases frot <;> cases frotsym <;>
    simp [processCase, hscan, caseRuns, run_soft, softCalls]

/-- C6, witness at a concrete world. -/
theorem multi_def_before_cfd_witness :
    scanFiles (pjoin "wk" "Case01") (caseWorld.listdir (pjoin "wk" "Case01")) =
      Except.ok caseSt ∧
    caseSt.find_config_cfd = true ∧
    (softCalls (processCase caseWorld "wk" "Case01").1 =
      (if caseSt.find_config_def then
        [("SU2_DEF", caseSt.config_def_path, pjoin "wk" "Case01")] else []) ++
      (if caseSt.find_config_rot then
        [("SU2_DEF", caseSt.config_rot_path, pjoin "wk" "Case01")] else []) ++
      (if caseSt.find_config_rot_sym then
        [("SU2_DEF", caseSt.config_rot_sym_path, pjoin "wk" "Case01")] else []) ++
      [("SU2_CFD", caseSt.config_cfd_path, pjoin "wk" "Case01")] ∧
    (processCase caseWorld "wk" "Case01").2 = none) :=
  ⟨rfl, rfl, multi_def_before_cfd caseWorld "wk" "Case01" caseSt rfl rfl⟩

/-! ### C9 -/

/-- C9: the failure of `run_SU2_multi` on a case directory lacking
`ConfigCFD.cfg` is not atomic.  First part: in such a directory, the
`SU2_DEF` invocations for whichever deformation configurations were
found all happen, and only then is the `ValueError` raised.  Second
part: the case-directory loop processes its directories in order, so
every case directory before the failing one has already been fully
processed (its whole event list is emitted before the failure). -/
theorem multi_failure_not_atomic :
    (∀ (w : World) (wkdir d : String) (st : FindSt),
      scanFiles (pjoin wkdir d) (w.listdir (pjoin wkdir d)) = Except.ok st →
      st.find_config_cfd = false →
      (processCase w wkdir d).2 =
        some (Err.valueError "No \"ConfigCFD.cfg\" file has been found in this directory!") ∧
      softCalls (processCase w wkdir d).1 =
        (if st.find_config_def then
          [("SU2_DEF", st.config_def_path, pjoin wkdir d)] else []) ++
        (if st.find_config_rot then
          [("SU2_DEF", st.config_rot_path, pjoin wkdir d)] else []) ++
        (if st.find_config_rot_sym then
          [("SU2_DEF", st.config_rot_sym_path, pjoin wkdir d)] else [])) ∧
    (∀ (w : World) (wkdir : String) (ds1 ds2 : List String),
      (∀ d ∈ ds1, (processCase w wkdir d).2 = none) →
      processCases w wkdir (ds1 ++ ds2) =
        ((ds1.map fun d => (processCase w wkdir d).1).flatten ++
            (processCases w wkdir ds2).1,
          (processCases w wkdir ds2).2)) := by
  constructor
  · intro w wkdir d st hscan hcfd
    obtain ⟨cfd, fdef, frot, frotsym, pc, pd, pr, prs⟩ := st
    simp only at hcfd
    subst hcfd
    cases fdef <;> cases frot <;> cases frotsym <;>
      simp [processCase, hscan, caseRuns, run_soft, softCalls]
  · intro w wkdir ds1 ds2 hok
    induction ds1 with
    | nil => simp [processCases]
    | cons d ds ih =>
      have hd := hok d (List.mem_cons_self d ds)
      have hds : ∀ d' ∈ ds, (processCase w wkdir d').2 = none :=
        fun d' hd' => hok d' (List.mem_cons_of_mem d hd')
      cases hpc : processCase w wkdir d with
      | mk t1 e1 =>
        rw [hpc] at hd
        simp only at hd
        subst hd
        simp [processCases, hpc, ih hds, List.append_assoc]

/-- C9, witness at a concrete world whose only case directory holds a
deformation configuration but no `ConfigCFD.cfg`. -/
theorem multi_failure_not_atomic_witness :
    scanFiles (pjoin "wk" "Case01") (noCfdWorld.listdir (pjoin "wk" "Case01")) =
      Except.ok noCfdSt ∧
    noCfdSt.find_config_cfd = false ∧
    ((processCase noCfdWorld "wk" "Case01").2 =
      some (Err.valueError "No \"ConfigCFD.cfg\" file has been found in this directory!") ∧
    softCalls (processCase noCfdWorld "wk" "Case01").1 =
      (if noCfdSt.find_config_def then
        [("SU2_DEF", noCfdSt.config_def_path, pjoin "wk" "Case01")] else []) ++
      (if noCfdSt.find_config_rot then
        [("SU2_DEF", noCfdSt.config_rot_path, pjoin "wk" "Case01")] else []) ++
      (if noCfdSt.find_config_rot_sym then
        [("SU2_DEF", noCfdSt.config_rot_sym_path, pjoin "wk" "Case01")] else [])) ∧
    ((∀ d ∈ (["Case01"] : List String), (processCase caseWorld "wk" d).2 = none) ∧
    processCases caseWorld "wk" (["Case01"] ++ []) =
      (((["Case01"] : List String).map fun d => (processCase caseWorld "wk" d).1).flatten ++
          (processCases caseWorld "wk" []).1,
        (processCases caseWorld "wk" []).2)) :=
  ⟨rfl, rfl, multi_failure_not_atomic.1 noCfdWorld "wk" "Case01" noCfdSt rfl rfl,
   fun d hd => by rw [List.mem_singleton] at hd; subst hd; rfl,
   multi_failure_not_atomic.2 caseWorld "wk" ["Case01"] []
     (fun d hd => by rw [List.mem_singleton] at hd; subst hd; rfl)⟩

/-! ### C10 -/

theorem cwdAfter_append (s : String) (t u : List Event) :
    cwdAfter s (t ++ u) = cwdAfter (cwdAfter s t) u := by
  simp [cwdAfter, List.foldl_append]

theorem processCase_ok_cwd (w : World) (wkdir d : String) (t : List Event)
    (h : processCase w wkdir d = (t, none)) :
    ∀ s, cwdAfter s t = wkdir := by
  intro s
  simp only [processCase] at h
  split at h
  · simp at h
  · split at h
    · simp at h
    · rename_i tc heq2
      simp only [Prod.mk.injEq] at h
      obtain ⟨ht, -⟩ := h
      subst ht
      rw [show Event.chdir (pjoin wkdir d) :: (tc ++ [Event.chdir wkdir]) =
        (Event.chdir (pjoin wkdir d) :: tc) ++ [Event.chdir wkdir] by simp]
      rw [cwdAfter_append]
      simp [cwdAfter]

theorem processCases_ok_cwd (w : World) (wkdir : String) (ds : List String)
    (t : List Event) (h : processCases w wkdir ds = (t, none)) :
    cwdAfter wkdir t = wkdir := by
  induction ds generalizing t with
  | nil =>
    simp only [processCases, Prod.mk.injEq] at h
    obtain ⟨ht, -⟩ := h
    subst ht
    rfl
  | cons d ds ih =>
    revert h
    unfold processCases
    cases hpc : processCase w wkdir d with
    | mk t1 e1 =>
      cases e1 with
      | some e => intro h; simp at h
      | none =>
        cases hr : processCases w wkdir ds with
        | mk t2 e2 =>
          intro h
          simp only [Prod.mk.injEq] at h
          obtain ⟨ht, he⟩ := h
          subst ht
          subst he
          rw [cwdAfter_append, processCase_ok_cwd w wkdir d t1 hpc]
          exact ih t2 hr

/-- C10: on every successful (normal) return, `run_SU2_single` and
`run_SU2_fsi` leave the current working directory back at its value at
entry (`cwd0`), whereas `run_SU2_multi` leaves it at the given working
directory instead of restoring the caller's directory. -/
theorem cwd_restore_behavior :
    (∀ (config_path wkdir : String) (w : World),
      (run_SU2_single config_path wkdir w).result = Except.ok () →
      cwdAfter w.cwd0 (run_SU2_single config_path wkdir w).trace = w.cwd0) ∧
    (∀ (config_path wkdir : String) (w : World),
      (run_SU2_fsi config_path wkdir w).result = Except.ok () →
      cwdAfter w.cwd0 (run_SU2_fsi config_path wkdir w).trace = w.cwd0) ∧
    (∀ (wkdir : String) (w : World),
      (run_SU2_multi wkdir w).result = Except.ok () →
      cwdAfter w.cwd0 (run_SU2_multi wkdir w).trace = wkdir) := by
  refine ⟨?_, ?_, ?_⟩
  · intro config_path wkdir w h
    cases hp : w.pathExists wkdir with
    | false => simp [run_SU2_single, hp] at h
    | true => simp [run_SU2_single, hp, run_soft, cwdAfter]
  · intro config_path wkdir w h
    cases hp : w.pathExists wkdir with
    | false => simp [run_SU2_fsi, hp] at h
    | true =>
      simp [run_SU2_fsi, hp, run_soft, read_config, write_config, cwdAfter]
  · intro wkdir w h
    revert h
    unfold run_SU2_multi
    cases hp : w.pathExists wkdir with
    | false => intro h; simp at h
    | true =>
      simp only [Bool.not_true, Bool.false_eq_true, if_false]
      by_cases hd : caseDirList w wkdir = []
      · simp [hd]
      · simp only [hd, if_false]
        cases hpc : processCases w wkdir (caseDirList w wkdir) with
        | mk t e =>
          cases e with
          | some e => intro h; simp at h
          | none =>
            intro _
            have : cwdAfter wkdir t = wkdir := processCases_ok_cwd w wkdir _ t hpc
            simpa [cwdAfter] using this

/-- C10, witness at concrete worlds (a successful single run, a
successful FSI run, and a successful multi-case run). -/
theorem cwd_restore_behavior_witness :
    ((run_SU2_single "cfg" "wk" trivWorld).result = Except.ok () ∧
      cwdAfter trivWorld.cwd0 (run_SU2_single "cfg" "wk" trivWorld).trace = trivWorld.cwd0) ∧
    ((run_SU2_fsi "cfg" "wk" trivWorld).result = Except.ok () ∧
      cwdAfter trivWorld.cwd0 (run_SU2_fsi "cfg" "wk" trivWorld).trace = trivWorld.cwd0) ∧
    ((run_SU2_multi "wk" caseWorld).result = Except.ok () ∧
      cwdAfter caseWorld.cwd0 (run_SU2_multi "wk" caseWorld).trace = "wk") :=
  ⟨⟨rfl, cwd_restore_behavior.1 "cfg" "wk" trivWorld rfl⟩,
   ⟨rfl, cwd_restore_behavior.2.1 "cfg" "wk" trivWorld rfl⟩,
   ⟨rfl, cwd_restore_behavior.2.2 "wk" caseWorld rfl⟩⟩

end SU2Run
